import Mathlib

/-!
Shallow embedding of `tele-bot.py` (a Telegram meal-cost splitting bot).

The program is a conversation state machine built from `ConversationHandler`
in `setup_bot`: states `WAITING_FOR_PARTICIPANTS`, `WAITING_FOR_BILL`,
`REMOVING_PARTICIPANT`, `WAITING_FOR_PURCHASER_INFO` plus the terminated
state `ConversationHandler.END`.  The mutable instance attributes of
`MealCostBot` that the handlers read and write are modelled by the record
`MealCostBot`; the Python dict `current_meal_participants` (insertion ordered,
exact-string keys) is an ordered association list.  Each Telegram handler
becomes a pure function from the bot record and the message text to a
result record carrying the updated bot, the replies sent, the next
conversation state and the effect of the Google-Sheets sync.  The external
spreadsheet service is abstracted by `SheetEnv`, which says whether the
worksheet already exists and whether the gspread call chain raises an
exception.

Numbers are modelled as rationals.  The reply-keyboard layout (rows of
three names in `remove_participant`) and timestamps are presentation
details: dates are carried as opaque strings, with `datetime.now()`
supplied as the `now` argument of `start_meal`/`step`.
-/

/-- The set of Python `str.strip()` default whitespace characters
(restricted to the ASCII ones). -/
def isPySpace (c : Char) : Bool :=
  c = ' ' || c = '\t' || c = '\n' || c = '\r' || c = '\x0b' || c = '\x0c'

/-- Python `s.strip()`: drop leading and trailing whitespace. -/
def pyStrip (s : String) : String :=
  String.mk (((s.toList.dropWhile isPySpace).reverse.dropWhile isPySpace).reverse)

/-- Python `s.lower()` restricted to ASCII letters (the only case the
handlers rely on; `Char.toLower` lowers exactly the ASCII uppercase
range). -/
def pyLower (s : String) : String :=
  String.mk (s.toList.map Char.toLower)

/-- ASCII decimal digit test, as accepted by Python float literals. -/
def isAsciiDigit (c : Char) : Bool :=
  '0' ≤ c && c ≤ '9'

/-- Numeric value of the decimal digit string `cs` (most significant
first). -/
def digitsToNat (cs : List Char) : ℕ :=
  cs.foldl (fun a c => 10 * a + (c.toNat - 48)) 0

/-- All characters are ASCII decimal digits. -/
def allDigits (cs : List Char) : Bool :=
  cs.all isAsciiDigit

/-- Exponent part of a Python float literal, after the `e`/`E`:
an optional sign followed by a nonempty digit string. -/
def parseExpDigits (cs : List Char) : Option ℤ :=
  match cs with
  | '+' :: t => if !t.isEmpty && allDigits t then some ((digitsToNat t : ℕ) : ℤ) else none
  | '-' :: t => if !t.isEmpty && allDigits t then some (-((digitsToNat t : ℕ) : ℤ)) else none
  | t => if !t.isEmpty && allDigits t then some ((digitsToNat t : ℕ) : ℤ) else none

/-- Mantissa of a Python float literal: `digits`, `digits.digits?`, or
`.digits` (at least one digit overall). -/
def parseMantissa (cs : List Char) : Option ℚ :=
  let ip := cs.takeWhile (fun c => c ≠ '.')
  let rest := cs.dropWhile (fun c => c ≠ '.')
  match rest with
  | [] => if !ip.isEmpty && allDigits ip then some ((digitsToNat ip : ℕ) : ℚ) else none
  | _ :: fp =>
    if allDigits ip && allDigits fp && (!ip.isEmpty || !fp.isEmpty) then
      some (((digitsToNat ip : ℕ) : ℚ) + ((digitsToNat fp : ℕ) : ℚ) / (10 : ℚ) ^ fp.length)
    else none

/-- Python `float(s)` on an already-stripped string, restricted to finite
decimal literals: optional sign, decimal mantissa, optional decimal
exponent.  The `inf`/`infinity`/`nan` spellings, digit-group underscores
and non-ASCII digits that CPython additionally accepts are outside the
model (the rationals cannot carry non-finite values). -/
def pyFloat? (s : String) : Option ℚ :=
  let cs := s.toList
  let sgn : ℚ :=
    match cs with
    | '-' :: _ => -1
    | _ => 1
  let body : List Char :=
    match cs with
    | '+' :: t => t
    | '-' :: t => t
    | _ => cs
  let mant := body.takeWhile (fun c => c ≠ 'e' && c ≠ 'E')
  let erest := body.dropWhile (fun c => c ≠ 'e' && c ≠ 'E')
  match erest with
  | [] => (parseMantissa mant).map (fun m => sgn * m)
  | _ :: ex =>
    match parseMantissa mant, parseExpDigits ex with
    | some m, some e => some (sgn * m * (10 : ℚ) ^ e)
    | _, _ => none

/-- Round a rational to the nearest integer, ties to even — the rounding
rule of Python's builtin `round`. -/
def roundHalfEvenQ (q : ℚ) : ℤ :=
  let f : ℤ := ⌊q⌋
  let r : ℚ := q - (f : ℚ)
  if r < 1 / 2 then f
  else if 1 / 2 < r then f + 1
  else if 2 ∣ f then f else f + 1

/-- Python `round(x, 2)`: round to the nearest multiple of `1/100`. -/
def roundTo2 (q : ℚ) : ℚ :=
  ((roundHalfEvenQ (q * 100) : ℤ) : ℚ) / 100

/-- Python `f-string` formatting `{x:.2f}`: two decimal places. -/
def fmt2 (q : ℚ) : String :=
  let cents : ℤ := roundHalfEvenQ (q * 100)
  let sgn := if cents < 0 then "-" else ""
  let a := cents.natAbs
  let ip := a / 100
  let fp := a % 100
  let fps := if fp < 10 then "0" ++ toString fp else toString fp
  sgn ++ toString ip ++ "." ++ fps

/-- The conversation states of `ConversationHandler` in `setup_bot`: the
four ints of `range(4)` plus `ConversationHandler.END` (no active
conversation; the spec calls it Idle/Terminated). -/
inductive ConvState where
  | WAITING_FOR_PARTICIPANTS
  | WAITING_FOR_BILL
  | REMOVING_PARTICIPANT
  | WAITING_FOR_PURCHASER_INFO
  | END
  deriving DecidableEq, Repr

/-- The mutable meal-tracking attributes of `MealCostBot`.  The
`current_meal_purchaser` dict is read only through its `'name'` entry
(`contact`/`additional_info` are written once in `__init__` and never
read), so it is modelled by that name string.  `current_meal_date` is the
`datetime.now()` timestamp already rendered as its `%Y-%m-%d` string. -/
structure MealCostBot where
  current_meal_participants : List (String × ℚ)
  current_meal_total_bill : ℚ
  current_meal_date : String
  current_meal_purchaser : String
  deriving DecidableEq, Repr

/-- The bot attributes set in `MealCostBot.__init__`: empty participant
dict, zero bill, purchaser name `''`, creation timestamp `now`. -/
def initBot (now : String) : MealCostBot :=
  ⟨[], 0, now, ""⟩

/-- One appended spreadsheet row of
`appendMealRecord(date, purchaser, total, participants, share)`. -/
structure LedgerRow where
  date : String
  purchaserName : String
  totalBill : ℚ
  participants : String
  individualShare : ℚ
  deriving DecidableEq, Repr

/-- The external Google-Sheets collaborator as seen by one sync attempt:
whether the `"Meal Costs"` worksheet already exists, and whether some call
in the gspread chain raises an exception (`failure = some e`). -/
structure SheetEnv where
  worksheetExists : Bool
  failure : Option String
  deriving DecidableEq, Repr

/-- Effect of one `sync_to_google_sheets` call: whether the header row of a
fresh worksheet was written, the data rows appended, and the log lines
emitted. -/
structure SyncResult where
  headerWritten : Bool
  appended : List LedgerRow
  logs : List String
  deriving DecidableEq, Repr

/-- A handler that performs no spreadsheet traffic. -/
def emptySync : SyncResult :=
  ⟨false, [], []⟩

/-- Result of running one handler: the updated bot attributes, the
`reply_text` messages sent (in order), the conversation state returned,
and the spreadsheet effect. -/
structure HRes where
  bot : MealCostBot
  replies : List String
  next : ConvState
  sync : SyncResult
  deriving DecidableEq, Repr

/-- Handler `start`: greet and end (no session is created). -/
def start (b : MealCostBot) : HRes :=
  ⟨b,
   ["Welcome to Meal Cost Distribution MealCostBot! Use /start_meal to begin tracking a new meal\x27s participants."],
   .END, emptySync⟩

/-- Handler `start_meal`: reset all meal data and ask for the purchaser. -/
def start_meal (now : String) (b : MealCostBot) : HRes :=
  ⟨{ b with
      current_meal_participants := [],
      current_meal_total_bill := 0,
      current_meal_date := now,
      current_meal_purchaser := "" },
   ["Starting a new meal. First, let\x27s collect the purchaser\x27s information.\n\nPlease enter the purchaser\x27s name:"],
   .WAITING_FOR_PURCHASER_INFO, emptySync⟩

/-- Handler `collect_purchaser_name`: record the stripped text as the
purchaser's name and move to participant collection. -/
def collect_purchaser_name (b : MealCostBot) (text : String) : HRes :=
  let nm := pyStrip text
  ⟨{ b with current_meal_purchaser := nm },
   [s!"Thanks, {nm}. Purchaser information recorded. Now, please enter the names of all participants, one name per message. Use /remove to remove a participant, /list to see current participants, or /done when finished."],
   .WAITING_FOR_PARTICIPANTS, emptySync⟩

/-- Handler `add_participant`: reject a name whose lowercase form matches
an existing key, otherwise insert it with share `0`. -/
def add_participant (b : MealCostBot) (text : String) : HRes :=
  let participant_name := pyStrip text
  if (b.current_meal_participants.map (fun e => pyLower e.1)).contains (pyLower participant_name) then
    ⟨b, [s!"{participant_name} is already in the participant list."],
     .WAITING_FOR_PARTICIPANTS, emptySync⟩
  else
    ⟨{ b with current_meal_participants := b.current_meal_participants ++ [(participant_name, 0)] },
     [s!"Added {participant_name} to the meal."], .WAITING_FOR_PARTICIPANTS, emptySync⟩

/-- Handler `remove_participant` (the `/remove` command): with no
participants stay put, otherwise show the selection keyboard (rows of
three names, presentation only) and await the choice. -/
def remove_participant (b : MealCostBot) : HRes :=
  if b.current_meal_participants.isEmpty then
    ⟨b, ["No participants to remove. Add participants first."], .WAITING_FOR_PARTICIPANTS, emptySync⟩
  else
    ⟨b, ["Select a participant to remove:"], .REMOVING_PARTICIPANT, emptySync⟩

/-- Handler `confirm_participant_removal`: case-sensitive membership test
(`in` on the dict); on a hit `del` the entry, on a miss report not-found;
either way return to participant collection. -/
def confirm_participant_removal (b : MealCostBot) (text : String) : HRes :=
  let participant_to_remove := pyStrip text
  if (b.current_meal_participants.map Prod.fst).contains participant_to_remove then
    ⟨{ b with
        current_meal_participants :=
          b.current_meal_participants.eraseP (fun e => e.1 == participant_to_remove) },
     [s!"Removed {participant_to_remove} from the meal participants."],
     .WAITING_FOR_PARTICIPANTS, emptySync⟩
  else
    ⟨b, [s!"Participant {participant_to_remove} not found."],
     .WAITING_FOR_PARTICIPANTS, emptySync⟩

/-- Handler `list_participants` (the `/list` command). -/
def list_participants (b : MealCostBot) : HRes :=
  if b.current_meal_participants.isEmpty then
    ⟨b, ["No participants added yet."], .WAITING_FOR_PARTICIPANTS, emptySync⟩
  else
    let pl := String.intercalate "\n" (b.current_meal_participants.map Prod.fst)
    ⟨b, [s!"Current participants:\n{pl}"], .WAITING_FOR_PARTICIPANTS, emptySync⟩

/-- Handler `finish_participants` (the `/done` command): refuse with an
empty dict, otherwise list the participants and await the bill. -/
def finish_participants (b : MealCostBot) : HRes :=
  if b.current_meal_participants.isEmpty then
    ⟨b, ["No participants added. Please add participants first."], .WAITING_FOR_PARTICIPANTS, emptySync⟩
  else
    let pl := String.intercalate ", " (b.current_meal_participants.map Prod.fst)
    ⟨b, [s!"Participants for this meal: {pl}\nNow, please send the total bill amount."],
     .WAITING_FOR_BILL, emptySync⟩

/-- The itemized result text built in `process_bill`:
`"Bill Split:\n"` then one `"{name}: ${share:.2f}\n"` line per
participant, then `"\nTotal Bill: ${total:.2f}"`. -/
def billSplitMessage (parts : List (String × ℚ)) (total : ℚ) : String :=
  (parts.foldl
    (fun acc e =>
      let nm := e.1
      let sh := fmt2 e.2
      acc ++ s!"{nm}: ${sh}\n")
    "Bill Split:\n")
  ++ (let tb := fmt2 total; s!"\nTotal Bill: ${tb}")

/-- The body of `sync_to_google_sheets`: open the spreadsheet, get or
create the `"Meal Costs"` worksheet (writing the header row when
creating), and append the meal row.  The surrounding
`try ... except Exception` swallows every raised exception and logs it,
so the function is total: when `env.failure = some e` the only effect is
the error log line.  The numeric renderings in the log line are
abstracted by `toString`. -/
def sync_to_google_sheets (env : SheetEnv) (b : MealCostBot) (total_bill individual_share : ℚ) : SyncResult :=
  match env.failure with
  | some e => ⟨false, [], ["Error syncing to Google Sheets: " ++ e]⟩
  | none =>
    let participants := String.intercalate ", " (b.current_meal_participants.map Prod.fst)
    let row : LedgerRow :=
      ⟨b.current_meal_date, b.current_meal_purchaser, total_bill, participants, individual_share⟩
    ⟨!env.worksheetExists, [row],
     ["Synced meal cost data to Google Sheet: " ++ toString total_bill]⟩

/-- Handler `process_bill`: parse the stripped text with `float`; on
`ValueError` prompt again and stay in `WAITING_FOR_BILL`; on success
compute `individual_share = round(total / n, 2)`, assign it to every
participant, sync the row, send the itemized message and end the
conversation.  The local `total_bill` is never written back to
`self.current_meal_total_bill`.  With an empty dict CPython would raise an
uncaught `ZeroDivisionError` (the `except` clause only catches
`ValueError`); the total model returns share `0` there, and the
reachability invariant `reach_inv` shows that state never occurs. -/
def process_bill (env : SheetEnv) (b : MealCostBot) (text : String) : HRes :=
  match pyFloat? (pyStrip text) with
  | some total_bill =>
    let num_participants := b.current_meal_participants.length
    let individual_share := roundTo2 (total_bill / (num_participants : ℚ))
    let parts := b.current_meal_participants.map (fun e => (e.1, individual_share))
    let b2 := { b with current_meal_participants := parts }
    let result_message := billSplitMessage parts total_bill
    ⟨b2, [result_message], .END, sync_to_google_sheets env b2 total_bill individual_share⟩
  | none =>
    ⟨b, ["Invalid bill amount. Please enter a valid number."], .WAITING_FOR_BILL, emptySync⟩

/-- Handler `cancel` (the fallback `/cancel` command): acknowledge and end
the conversation; the meal attributes are left as they are. -/
def cancel (b : MealCostBot) : HRes :=
  ⟨b, ["Meal tracking cancelled."], .END, emptySync⟩

/-- One inbound Telegram update: a `/command` invocation or a plain text
message (the `filters.TEXT & ~filters.COMMAND` kind). -/
inductive Input where
  | command (nm : String)
  | text (s : String)
  deriving DecidableEq, Repr

/-- The dispatch wired by `setup_bot`'s `ConversationHandler`: in `END`
only the entry points `/start` and `/start_meal` fire (`allow_reentry`
is off, so entry points are not consulted while a conversation is
active); in an active state the state's handlers fire first and otherwise
the single fallback `/cancel`; any other update is silently ignored. -/
def step (now : String) (env : SheetEnv) (b : MealCostBot) (st : ConvState) (i : Input) : HRes :=
  match st with
  | .END =>
    match i with
    | .command c =>
      if c = "start" then start b
      else if c = "start_meal" then start_meal now b
      else ⟨b, [], .END, emptySync⟩
    | .text _ => ⟨b, [], .END, emptySync⟩
  | .WAITING_FOR_PURCHASER_INFO =>
    match i with
    | .text t => collect_purchaser_name b t
    | .command c =>
      if c = "cancel" then cancel b
      else ⟨b, [], .WAITING_FOR_PURCHASER_INFO, emptySync⟩
  | .WAITING_FOR_PARTICIPANTS =>
    match i with
    | .text t => add_participant b t
    | .command c =>
      if c = "remove" then remove_participant b
      else if c = "list" then list_participants b
      else if c = "done" then finish_participants b
      else if c = "cancel" then cancel b
      else ⟨b, [], .WAITING_FOR_PARTICIPANTS, emptySync⟩
  | .REMOVING_PARTICIPANT =>
    match i with
    | .text t => confirm_participant_removal b t
    | .command c =>
      if c = "cancel" then cancel b
      else ⟨b, [], .REMOVING_PARTICIPANT, emptySync⟩
  | .WAITING_FOR_BILL =>
    match i with
    | .text t => process_bill env b t
    | .command c =>
      if c = "cancel" then cancel b
      else ⟨b, [], .WAITING_FOR_BILL, emptySync⟩

/-- The bot-and-conversation configurations reachable from process start:
the freshly constructed `MealCostBot` with no active conversation,
closed under one dispatch step for any timestamp, sheet environment and
inbound update. -/
inductive Reach : MealCostBot → ConvState → Prop where
  | init (now : String) : Reach (initBot now) .END
  | next {b : MealCostBot} {st : ConvState} (h : Reach b st)
      (now : String) (env : SheetEnv) (i : Input) :
      Reach (step now env b st i).bot (step now env b st i).next

/-- The lowercase forms of the participant keys, the list that
`add_participant`'s duplicate check scans. -/
def keysLower (b : MealCostBot) : List String :=
  b.current_meal_participants.map (fun e => pyLower e.1)

/-- The invariant carried by every reachable configuration: the
lowercased participant keys are pairwise distinct, and whenever the
conversation sits in `WAITING_FOR_BILL` the participant dict is
non-empty. -/
def SessionInv (b : MealCostBot) (st : ConvState) : Prop :=
  (keysLower b).Nodup ∧ (st = ConvState.WAITING_FOR_BILL → b.current_meal_participants ≠ [])

/-- A healthy spreadsheet service whose worksheet already exists. -/
def envOk : SheetEnv :=
  ⟨true, none⟩

/-- A spreadsheet service whose call chain raises an exception. -/
def envDown : SheetEnv :=
  ⟨true, some "APIError: quota exceeded"⟩

/-- A session about to receive the bill: purchaser Sam, participants
Alice and Bob. -/
def demoBot : MealCostBot :=
  ⟨[("Alice", 0), ("Bob", 0)], 0, "2024-01-01", "Sam"⟩

/-- The session obtained by adding the single participant `"Alice"` to a
fresh meal. -/
def aliceBot : MealCostBot :=
  (add_participant (initBot "2024-01-01") "Alice").bot

theorem contains_iff_mem_str (l : List String) (a : String) : l.contains a = true ↔ a ∈ l := by
  simp [List.contains]

/-- Under distinct keys, deleting a dict entry by predicate on its key is
the same as keeping every entry with a different key. -/
theorem eraseP_key_eq_filter (p : String) :
    ∀ (l : List (String × ℚ)), (l.map Prod.fst).Nodup →
      l.eraseP (fun e => e.1 == p) = l.filter (fun e => !(e.1 == p)) := by
  intro l
  induction l with
  | nil => intro _; rfl
  | cons a t ih =>
    intro h
    simp only [List.map_cons, List.nodup_cons] at h
    by_cases ha : a.1 = p
    · have hnot : ∀ e ∈ t, (!(e.1 == p)) = true := by
        intro e he
        have hm : e.1 ∈ t.map Prod.fst := List.mem_map_of_mem _ he
        have hne : e.1 ≠ p := by
          intro hep
          exact h.1 (by rw [ha, ← hep]; exact hm)
        simp [hne]
      simp [List.eraseP_cons, ha, List.filter_cons, List.filter_eq_self.2 hnot]
    · simp [List.eraseP_cons, ha, List.filter_cons, ih h.2]

/-- Every single dispatch step preserves the session invariant. -/
theorem step_inv (now : String) (env : SheetEnv) (b : MealCostBot) (st : ConvState) (i : Input)
    (h : SessionInv b st) : SessionInv (step now env b st i).bot (step now env b st i).next := by
  obtain ⟨hnd, hwb⟩ := h
  cases st with
  | END =>
    cases i with
    | command c =>
      simp only [step, start, start_meal]
      split_ifs
      · exact ⟨hnd, by intro hh; cases hh⟩
      · exact ⟨by simp [keysLower], by intro hh; cases hh⟩
      · exact ⟨hnd, by intro hh; cases hh⟩
    | text t => exact ⟨hnd, by intro hh; cases hh⟩
  | WAITING_FOR_PURCHASER_INFO =>
    cases i with
    | command c =>
      simp only [step, cancel]
      split_ifs
      · exact ⟨hnd, by intro hh; cases hh⟩
      · exact ⟨hnd, by intro hh; cases hh⟩
    | text t => exact ⟨hnd, by intro hh; cases hh⟩
  | WAITING_FOR_PARTICIPANTS =>
    cases i with
    | command c =>
      simp only [step, remove_participant, list_participants, finish_participants, cancel]
      split_ifs with h1 h2 h3 h4 h5 h6 h7
      all_goals refine ⟨hnd, ?_⟩
      all_goals intro hh
      all_goals first
        | (intro heq; exact absurd (List.isEmpty_iff.2 heq) (by assumption))
        | cases hh
    | text t =>
      simp only [step, add_participant]
      split_ifs with hc
      · exact ⟨hnd, by intro hh; cases hh⟩
      · refine ⟨?_, by intro hh; cases hh⟩
        have hmem : pyLower (pyStrip t) ∉ keysLower b := by
          intro hm
          exact hc ((contains_iff_mem_str _ _).2 hm)
        show ((b.current_meal_participants ++ [(pyStrip t, 0)]).map
          (fun (e : String × ℚ) => pyLower e.1)).Nodup
        rw [List.map_append, List.nodup_append]
        exact ⟨hnd, List.nodup_singleton _, by
          simp only [List.map_cons, List.map_nil, List.disjoint_singleton]
          exact hmem⟩
  | REMOVING_PARTICIPANT =>
    cases i with
    | command c =>
      simp only [step, cancel]
      split_ifs
      · exact ⟨hnd, by intro hh; cases hh⟩
      · exact ⟨hnd, by intro hh; cases hh⟩
    | text t =>
      simp only [step, confirm_participant_removal]
      split_ifs with hc
      · refine ⟨?_, by intro hh; cases hh⟩
        show ((b.current_meal_participants.eraseP
            (fun e => e.1 == pyStrip t)).map (fun (e : String × ℚ) => pyLower e.1)).Nodup
        exact List.Nodup.sublist (List.Sublist.map _ (List.eraseP_sublist _)) hnd
      · exact ⟨hnd, by intro hh; cases hh⟩
  | WAITING_FOR_BILL =>
    cases i with
    | command c =>
      simp only [step, cancel]
      split_ifs
      · exact ⟨hnd, by intro hh; cases hh⟩
      · exact ⟨hnd, fun _ => hwb rfl⟩
    | text t =>
      rcases hq : pyFloat? (pyStrip t) with _ | q
      · simp only [step, process_bill, hq]
        exact ⟨hnd, fun _ => hwb rfl⟩
      · simp only [step, process_bill, hq]
        refine ⟨?_, by intro hh; cases hh⟩
        simpa [keysLower, List.map_map, Function.comp] using hnd

/-- Every reachable configuration satisfies the session invariant. -/
theorem reach_inv {b : MealCostBot} {st : ConvState} (h : Reach b st) : SessionInv b st := by
  induction h with
  | init now => exact ⟨by simp [keysLower, initBot], by intro hh; cases hh⟩
  | next h now env i ih => exact step_inv now env _ _ i ih

/-- Evaluation of the bill parse on the text `"100"`. -/
theorem pyFloat_100 : pyFloat? (pyStrip "100") = some 100 := by
  have h : pyFloat? (pyStrip "100") = some (1 * ((digitsToNat ['1', '0', '0'] : ℕ) : ℚ)) := rfl
  rw [h]
  norm_num [show digitsToNat ['1', '0', '0'] = 100 from rfl]

/-- Evaluation of the bill parse on the text `"-5"`. -/
theorem pyFloat_neg5 : pyFloat? (pyStrip "-5") = some (-5) := by
  have h : pyFloat? (pyStrip "-5") = some ((-1) * ((digitsToNat ['5'] : ℕ) : ℚ)) := rfl
  rw [h]
  norm_num [show digitsToNat ['5'] = 5 from rfl]

/-- C1: in the `WAITING_FOR_BILL` state, a bill text that parses as the
number `totalBill` makes the split keep the participant names unchanged,
assign to every participant the single rounded share
`round(totalBill / n, 2)` for `n` the participant count, and hence give
all participants shares equal to each other. -/
theorem split_assigns_equal_rounded_share
    (now : String) (env : SheetEnv) (b : MealCostBot) (text : String) (totalBill : ℚ)
    (hp : pyFloat? (pyStrip text) = some totalBill)
    (_hn : 1 ≤ b.current_meal_participants.length) :
    ((step now env b .WAITING_FOR_BILL (.text text)).bot.current_meal_participants.map Prod.fst
        = b.current_meal_participants.map Prod.fst)
    ∧ (∀ e ∈ (step now env b .WAITING_FOR_BILL (.text text)).bot.current_meal_participants,
        e.2 = roundTo2 (totalBill / (b.current_meal_participants.length : ℚ)))
    ∧ ∀ e ∈ (step now env b .WAITING_FOR_BILL (.text text)).bot.current_meal_participants,
        ∀ f ∈ (step now env b .WAITING_FOR_BILL (.text text)).bot.current_meal_participants,
          e.2 = f.2 := by
  simp only [step, process_bill, hp]
  refine ⟨?_, ?_, ?_⟩
  · simp [List.map_map, Function.comp]
  · intro e he
    simp only [List.mem_map] at he
    obtain ⟨a, _, rfl⟩ := he
    rfl
  · intro e he f hf
    simp only [List.mem_map] at he hf
    obtain ⟨a, _, rfl⟩ := he
    obtain ⟨a2, _, rfl⟩ := hf
    rfl

/-- C1 witness: the split of the bill `"100"` between Alice and Bob. -/
theorem split_assigns_equal_rounded_share_witness :
    ((step "2024-01-01" envOk demoBot .WAITING_FOR_BILL
          (.text "100")).bot.current_meal_participants.map Prod.fst
        = demoBot.current_meal_participants.map Prod.fst)
    ∧ (∀ e ∈ (step "2024-01-01" envOk demoBot .WAITING_FOR_BILL
          (.text "100")).bot.current_meal_participants,
        e.2 = roundTo2 ((100 : ℚ) / (demoBot.current_meal_participants.length : ℚ)))
    ∧ ∀ e ∈ (step "2024-01-01" envOk demoBot .WAITING_FOR_BILL
          (.text "100")).bot.current_meal_participants,
        ∀ f ∈ (step "2024-01-01" envOk demoBot .WAITING_FOR_BILL
          (.text "100")).bot.current_meal_participants,
          e.2 = f.2 :=
  split_assigns_equal_rounded_share "2024-01-01" envOk demoBot "100" 100
    pyFloat_100 (by decide)

/-- C2: adding a name that lowercases to the lowercase form of a present
key leaves the whole bot state unchanged, emits exactly the duplicate
rejection, and stays in `WAITING_FOR_PARTICIPANTS`; consequently in every
reachable configuration the lowercased participant keys are pairwise
distinct. -/
theorem duplicate_add_rejected :
    (∀ (b : MealCostBot) (text : String),
        pyLower (pyStrip text) ∈ keysLower b →
          add_participant b text =
            ⟨b, [pyStrip text ++ " is already in the participant list."],
             .WAITING_FOR_PARTICIPANTS, emptySync⟩)
    ∧ ∀ (b : MealCostBot) (st : ConvState), Reach b st → (keysLower b).Nodup := by
  constructor
  · intro b text hm
    have hc : (b.current_meal_participants.map (fun e => pyLower e.1)).contains
        (pyLower (pyStrip text)) = true := (contains_iff_mem_str _ _).2 hm
    simp only [add_participant]
    rw [if_pos hc]
    rfl
  · intro b st h
    exact (reach_inv h).1

/-- C2 witness: adding `"ALICE "` to a session already containing
`"Alice"` is rejected, and the initial configuration has distinct keys. -/
theorem duplicate_add_rejected_witness :
    (add_participant demoBot "ALICE " =
      ⟨demoBot, [pyStrip "ALICE " ++ " is already in the participant list."],
       .WAITING_FOR_PARTICIPANTS, emptySync⟩)
    ∧ (keysLower (initBot "2024-01-01")).Nodup :=
  ⟨duplicate_add_rejected.1 demoBot "ALICE " (by decide),
   duplicate_add_rejected.2 _ _ (Reach.init "2024-01-01")⟩

/-- C3: insertion changes the bot exactly when the case-insensitive
duplicate check fails, removal changes the bot exactly when the
case-sensitive membership test succeeds; concretely, after inserting
`"Alice"`, submitting `"alice"` is rejected as a duplicate by insertion
yet reported not-found by removal (map unchanged), while removing
`"Alice"` deletes the entry, and removal returns to
`WAITING_FOR_PARTICIPANTS` in both cases. -/
theorem insert_ci_remove_cs :
    (∀ (b : MealCostBot) (text : String),
        ((add_participant b text).bot = b ↔
          (keysLower b).contains (pyLower (pyStrip text)) = true))
    ∧ (∀ (b : MealCostBot) (text : String),
        ((confirm_participant_removal b text).bot = b ↔
          (b.current_meal_participants.map Prod.fst).contains (pyStrip text) = false))
    ∧ aliceBot.current_meal_participants = [("Alice", 0)]
    ∧ (add_participant aliceBot "alice").bot = aliceBot
    ∧ confirm_participant_removal aliceBot "alice" =
        ⟨aliceBot, ["Participant alice not found."], .WAITING_FOR_PARTICIPANTS, emptySync⟩
    ∧ (confirm_participant_removal aliceBot "Alice").bot.current_meal_participants = []
    ∧ (confirm_participant_removal aliceBot "Alice").replies =
        ["Removed Alice from the meal participants."]
    ∧ (confirm_participant_removal aliceBot "Alice").next = .WAITING_FOR_PARTICIPANTS := by
  refine ⟨?_, ?_, by decide, by decide, by decide, by decide, by decide, by decide⟩
  · intro b text
    simp only [keysLower]
    constructor
    · intro hb
      by_cases hc : (b.current_meal_participants.map (fun e => pyLower e.1)).contains
          (pyLower (pyStrip text)) = true
      · exact hc
      · exfalso
        have hb2 := congrArg MealCostBot.current_meal_participants hb
        simp only [add_participant] at hb2
        rw [if_neg hc] at hb2
        have hl := congrArg List.length hb2
        simp [List.length_append] at hl
    · intro hc
      simp only [add_participant]
      rw [if_pos hc]
  · intro b text
    constructor
    · intro hb
      by_cases hc : (b.current_meal_participants.map Prod.fst).contains (pyStrip text) = true
      · exfalso
        have hb2 := congrArg MealCostBot.current_meal_participants hb
        simp only [confirm_participant_removal] at hb2
        rw [if_pos hc] at hb2
        dsimp only at hb2
        have hmem : pyStrip text ∈ b.current_meal_participants.map Prod.fst :=
          (contains_iff_mem_str _ _).1 hc
        obtain ⟨e, he, hfe⟩ := List.mem_map.1 hmem
        have hlen := @List.length_eraseP_add_one _ (fun x => x.1 == pyStrip text) _ _ he
          (by simp [hfe])
        have hl := congrArg List.length hb2
        omega
      · simpa using hc
    · intro hc
      simp only [confirm_participant_removal]
      rw [if_neg (by rw [hc]; exact Bool.false_ne_true)]

/-- C4: the `/done` command with an empty participant dict emits the
rejection and stays in `WAITING_FOR_PARTICIPANTS` without touching the
bot, and with a non-empty dict emits the participant list and moves to
`WAITING_FOR_BILL`. -/
theorem done_gating (b : MealCostBot) :
    (b.current_meal_participants = [] →
      finish_participants b =
        ⟨b, ["No participants added. Please add participants first."],
         .WAITING_FOR_PARTICIPANTS, emptySync⟩)
    ∧ (b.current_meal_participants ≠ [] →
      finish_participants b =
        ⟨b, ["Participants for this meal: "
              ++ String.intercalate ", " (b.current_meal_participants.map Prod.fst)
              ++ "\nNow, please send the total bill amount."],
         .WAITING_FOR_BILL, emptySync⟩) := by
  constructor
  · intro h
    simp only [finish_participants]
    rw [if_pos (by simp [List.isEmpty_iff, h])]
  · intro h
    simp only [finish_participants]
    rw [if_neg (by simp [List.isEmpty_iff, h])]
    rfl

/-- C4 witness: `/done` on the fresh session is refused, `/done` with
Alice and Bob present moves to the bill state. -/
theorem done_gating_witness :
    (finish_participants (initBot "2024-01-01") =
      ⟨initBot "2024-01-01", ["No participants added. Please add participants first."],
       .WAITING_FOR_PARTICIPANTS, emptySync⟩)
    ∧ finish_participants demoBot =
      ⟨demoBot, ["Participants for this meal: "
          ++ String.intercalate ", " (demoBot.current_meal_participants.map Prod.fst)
          ++ "\nNow, please send the total bill amount."],
       .WAITING_FOR_BILL, emptySync⟩ :=
  ⟨(done_gating (initBot "2024-01-01")).1 (by decide),
   (done_gating demoBot).2 (by decide)⟩

/-- C5: in the `WAITING_FOR_BILL` state, a text that does not parse as a
number leaves the whole bot record (participant names and shares
included) unchanged, emits exactly the invalid-amount prompt, stays in
`WAITING_FOR_BILL`, and causes no spreadsheet traffic. -/
theorem invalid_bill_retry
    (now : String) (env : SheetEnv) (b : MealCostBot) (text : String)
    (h : pyFloat? (pyStrip text) = none) :
    step now env b .WAITING_FOR_BILL (.text text) =
      ⟨b, ["Invalid bill amount. Please enter a valid number."],
       .WAITING_FOR_BILL, emptySync⟩ := by
  simp [step, process_bill, h]

/-- C5 witness: the non-numeric bill `"forty"`. -/
theorem invalid_bill_retry_witness :
    step "2024-01-01" envOk demoBot .WAITING_FOR_BILL (.text "forty") =
      ⟨demoBot, ["Invalid bill amount. Please enter a valid number."],
       .WAITING_FOR_BILL, emptySync⟩ :=
  invalid_bill_retry "2024-01-01" envOk demoBot "forty" (by decide)

/-- C6: the bot state, the replies (the itemized split message included)
and the next conversation state of the bill handler are identical across
all spreadsheet environments; a raising environment produces only an
error log entry and no appended row; and every accepted bill still ends
the conversation, whatever the environment. -/
theorem sync_failure_isolated :
    (∀ (env env2 : SheetEnv) (b : MealCostBot) (text : String),
        (process_bill env b text).bot = (process_bill env2 b text).bot
        ∧ (process_bill env b text).replies = (process_bill env2 b text).replies
        ∧ (process_bill env b text).next = (process_bill env2 b text).next)
    ∧ (∀ (env : SheetEnv) (e : String) (b : MealCostBot) (total share : ℚ),
        env.failure = some e →
          sync_to_google_sheets env b total share =
            ⟨false, [], ["Error syncing to Google Sheets: " ++ e]⟩)
    ∧ ∀ (env : SheetEnv) (b : MealCostBot) (text : String) (q : ℚ),
        pyFloat? (pyStrip text) = some q →
          (process_bill env b text).next = ConvState.END := by
  refine ⟨?_, ?_, ?_⟩
  · intro env env2 b text
    rcases hq : pyFloat? (pyStrip text) with _ | q <;>
      simp [process_bill, hq]
  · intro env e b total share hf
    simp [sync_to_google_sheets, hf]
  · intro env b text q hq
    simp [process_bill, hq]

/-- C6 witness: the bill `"100"` under a raising environment versus a
healthy one. -/
theorem sync_failure_isolated_witness :
    ((process_bill envDown demoBot "100").bot = (process_bill envOk demoBot "100").bot
      ∧ (process_bill envDown demoBot "100").replies = (process_bill envOk demoBot "100").replies
      ∧ (process_bill envDown demoBot "100").next = (process_bill envOk demoBot "100").next)
    ∧ (sync_to_google_sheets envDown demoBot 100 50 =
        ⟨false, [], ["Error syncing to Google Sheets: " ++ "APIError: quota exceeded"]⟩)
    ∧ (process_bill envDown demoBot "100").next = ConvState.END :=
  ⟨sync_failure_isolated.1 envDown envOk demoBot "100",
   sync_failure_isolated.2.1 envDown "APIError: quota exceeded" demoBot 100 50 rfl,
   sync_failure_isolated.2.2 envDown demoBot "100" 100 pyFloat_100⟩

/-- C7 counterexample: the bill text `"-5"` parses, is accepted (the
handler ends the conversation instead of taking the invalid-amount
branch), and the ledger row records the negative total `-5`, refuting the
claim that every accepted bill value is non-negative. -/
theorem negative_bill_accepted_cex :
    pyFloat? (pyStrip "-5") = some (-5)
    ∧ (process_bill envOk demoBot "-5").next = ConvState.END
    ∧ (process_bill envOk demoBot "-5").sync.appended.map LedgerRow.totalBill = [(-5 : ℚ)]
    ∧ ((-5 : ℚ) < 0) := by
  refine ⟨pyFloat_neg5, ?_, ?_, by norm_num⟩
  · simp [process_bill, pyFloat_neg5]
  · simp [process_bill, pyFloat_neg5, sync_to_google_sheets, envOk]

/-- C7 as amended: every accepted bill value is used for the split and
the ledger row exactly as parsed, with no finiteness or non-negativity
validation — the recorded total equals the parse result and every share
is the rounded division of it, even when it is negative. -/
theorem bill_value_recorded_unvalidated
    (env : SheetEnv) (b : MealCostBot) (text : String) (q : ℚ)
    (hp : pyFloat? (pyStrip text) = some q) :
    (∀ row ∈ (process_bill env b text).sync.appended,
        row.totalBill = q
        ∧ row.individualShare = roundTo2 (q / (b.current_meal_participants.length : ℚ)))
    ∧ ∀ e ∈ (process_bill env b text).bot.current_meal_participants,
        e.2 = roundTo2 (q / (b.current_meal_participants.length : ℚ)) := by
  constructor
  · intro row hrow
    rcases env with ⟨we, _ | e⟩
    · simp [process_bill, hp, sync_to_google_sheets] at hrow
      subst hrow
      exact ⟨rfl, rfl⟩
    · simp [process_bill, hp, sync_to_google_sheets] at hrow
  · intro e he
    simp only [process_bill, hp, List.mem_map] at he
    obtain ⟨a, _, rfl⟩ := he
    rfl

/-- C7 witness: the negative bill `"-5"` recorded verbatim. -/
theorem bill_value_recorded_unvalidated_witness :
    (∀ row ∈ (process_bill envOk demoBot "-5").sync.appended,
        row.totalBill = -5
        ∧ row.individualShare =
            roundTo2 ((-5 : ℚ) / (demoBot.current_meal_participants.length : ℚ)))
    ∧ ∀ e ∈ (process_bill envOk demoBot "-5").bot.current_meal_participants,
        e.2 = roundTo2 ((-5 : ℚ) / (demoBot.current_meal_participants.length : ℚ)) :=
  bill_value_recorded_unvalidated envOk demoBot "-5" (-5) pyFloat_neg5

/-- C8 counterexample: with no active conversation (the Terminated/Idle
situation, `ConvState.END`) the `/cancel` command is not dispatched and
emits no acknowledgment, and `/cancel` during participant collection
leaves the participant entries in the bot record rather than discarding
them — refuting the claim that cancel acknowledges in every state and
discards the session data. -/
theorem cancel_outside_conversation_cex :
    (step "2024-01-01" envOk demoBot ConvState.END (.command "cancel")).replies = []
    ∧ (step "2024-01-01" envOk demoBot ConvState.WAITING_FOR_PARTICIPANTS
        (.command "cancel")).bot.current_meal_participants = [("Alice", 0), ("Bob", 0)] :=
  ⟨by decide, by decide⟩

/-- C8 as amended: in every active conversation state the `/cancel`
command emits the acknowledgment and ends the conversation, leaving the
in-memory meal fields in place; the discarding happens at the next
`/start_meal`, which begins a fresh session with an empty participant
dict, zero total bill and a blank purchaser. -/
theorem cancel_active_then_start_meal_resets
    (now : String) (env : SheetEnv) (b : MealCostBot) (st : ConvState)
    (h : st ≠ ConvState.END) :
    step now env b st (.command "cancel") =
      ⟨b, ["Meal tracking cancelled."], ConvState.END, emptySync⟩
    ∧ ∀ (now2 : String) (env2 : SheetEnv) (b2 : MealCostBot),
        step now2 env2 b2 ConvState.END (.command "start_meal") =
          ⟨⟨[], 0, now2, ""⟩,
           ["Starting a new meal. First, let\x27s collect the purchaser\x27s information.\n\nPlease enter the purchaser\x27s name:"],
           ConvState.WAITING_FOR_PURCHASER_INFO, emptySync⟩ := by
  refine ⟨?_, fun now2 env2 b2 => rfl⟩
  cases st with
  | END => exact absurd rfl h
  | WAITING_FOR_PARTICIPANTS => rfl
  | WAITING_FOR_BILL => rfl
  | REMOVING_PARTICIPANT => rfl
  | WAITING_FOR_PURCHASER_INFO => rfl

/-- C8 witness: cancelling during participant collection. -/
theorem cancel_active_then_start_meal_resets_witness :
    (step "2024-01-01" envOk demoBot ConvState.WAITING_FOR_PARTICIPANTS (.command "cancel") =
      ⟨demoBot, ["Meal tracking cancelled."], ConvState.END, emptySync⟩)
    ∧ ∀ (now2 : String) (env2 : SheetEnv) (b2 : MealCostBot),
        step now2 env2 b2 ConvState.END (.command "start_meal") =
          ⟨⟨[], 0, now2, ""⟩,
           ["Starting a new meal. First, let\x27s collect the purchaser\x27s information.\n\nPlease enter the purchaser\x27s name:"],
           ConvState.WAITING_FOR_PURCHASER_INFO, emptySync⟩ :=
  cancel_active_then_start_meal_resets "2024-01-01" envOk demoBot
    ConvState.WAITING_FOR_PARTICIPANTS (by decide)

/-- C9: in every reachable configuration sitting in `WAITING_FOR_BILL`
the participant dict has at least one entry, so the division
`total_bill / num_participants` in the bill handler never divides by
zero. -/
theorem process_bill_never_divides_by_zero
    (b : MealCostBot) (h : Reach b ConvState.WAITING_FOR_BILL) :
    1 ≤ b.current_meal_participants.length :=
  List.length_pos.2 ((reach_inv h).2 rfl)

/-- C9 witness: the configuration reached by `/start_meal`, purchaser
`"Sam"`, participant `"Alice"`, `/done`. -/
theorem process_bill_never_divides_by_zero_witness :
    1 ≤ (MealCostBot.mk [("Alice", 0)] 0 "2024-01-01" "Sam").current_meal_participants.length := by
  refine process_bill_never_divides_by_zero _ ?_
  have h0 := Reach.init "2024-01-01"
  have h1 := Reach.next h0 "2024-01-01" envOk (Input.command "start_meal")
  have h2 := Reach.next h1 "2024-01-01" envOk (Input.text "Sam")
  have h3 := Reach.next h2 "2024-01-01" envOk (Input.text "Alice")
  have h4 := Reach.next h3 "2024-01-01" envOk (Input.command "done")
  exact h4

/-- C10: a removal attempt never touches the total bill, the purchaser or
the date and always returns to `WAITING_FOR_PARTICIPANTS`; on a hit
(under the distinct keys every reachable session has) exactly the
entries with a different key survive, order and shares intact, and on a
miss the bot record is completely unchanged. -/
theorem removal_frame (b : MealCostBot) (text : String)
    (hnd : (b.current_meal_participants.map Prod.fst).Nodup) :
    (confirm_participant_removal b text).next = ConvState.WAITING_FOR_PARTICIPANTS
    ∧ (confirm_participant_removal b text).bot.current_meal_total_bill = b.current_meal_total_bill
    ∧ (confirm_participant_removal b text).bot.current_meal_purchaser = b.current_meal_purchaser
    ∧ (confirm_participant_removal b text).bot.current_meal_date = b.current_meal_date
    ∧ (pyStrip text ∈ b.current_meal_participants.map Prod.fst →
        (confirm_participant_removal b text).bot.current_meal_participants =
          b.current_meal_participants.filter (fun e => !(e.1 == pyStrip text))
        ∧ (confirm_participant_removal b text).replies =
            ["Removed " ++ pyStrip text ++ " from the meal participants."])
    ∧ (pyStrip text ∉ b.current_meal_participants.map Prod.fst →
        (confirm_participant_removal b text).bot = b
        ∧ (confirm_participant_removal b text).replies =
            ["Participant " ++ pyStrip text ++ " not found."]) := by
  by_cases hc : (b.current_meal_participants.map Prod.fst).contains (pyStrip text) = true
  · simp only [confirm_participant_removal]
    rw [if_pos hc]
    refine ⟨rfl, rfl, rfl, rfl, ?_, ?_⟩
    · intro _
      exact ⟨eraseP_key_eq_filter (pyStrip text) _ hnd, rfl⟩
    · intro hnm
      exact absurd ((contains_iff_mem_str _ _).1 hc) hnm
  · simp only [confirm_participant_removal]
    rw [if_neg hc]
    refine ⟨rfl, rfl, rfl, rfl, ?_, fun _ => ⟨rfl, rfl⟩⟩
    intro hm
    exact absurd ((contains_iff_mem_str _ _).2 hm) hc

/-- C10 witness: removing `"Alice"` from the Alice-and-Bob session. -/
theorem removal_frame_witness :
    (confirm_participant_removal demoBot "Alice").next = ConvState.WAITING_FOR_PARTICIPANTS
    ∧ (confirm_participant_removal demoBot "Alice").bot.current_meal_total_bill =
        demoBot.current_meal_total_bill
    ∧ (confirm_participant_removal demoBot "Alice").bot.current_meal_purchaser =
        demoBot.current_meal_purchaser
    ∧ (confirm_participant_removal demoBot "Alice").bot.current_meal_date =
        demoBot.current_meal_date
    ∧ (pyStrip "Alice" ∈ demoBot.current_meal_participants.map Prod.fst →
        (confirm_participant_removal demoBot "Alice").bot.current_meal_participants =
          demoBot.current_meal_participants.filter (fun e => !(e.1 == pyStrip "Alice"))
        ∧ (confirm_participant_removal demoBot "Alice").replies =
            ["Removed " ++ pyStrip "Alice" ++ " from the meal participants."])
    ∧ (pyStrip "Alice" ∉ demoBot.current_meal_participants.map Prod.fst →
        (confirm_participant_removal demoBot "Alice").bot = demoBot
        ∧ (confirm_participant_removal demoBot "Alice").replies =
            ["Participant " ++ pyStrip "Alice" ++ " not found."]) :=
  removal_frame demoBot "Alice" (by decide)
